import Mathlib

/-!
Shallow embedding of the Pixie-sh/dedup-go deduplication core (src/dedup.go,
src/errors.go, src/utils.go) and proofs about the claims of its specification.

Modelling conventions:
* Go byte slices (`[]byte`) are `List Nat` (`Bytes`); Go strings that are
  immediately converted to bytes are modelled directly as their byte lists.
* The record fetched by `Storage.Get` is `Option Bytes`: `none` models the Go
  nil slice returned when the key is absent, `some bs` a non-nil slice.  This
  matches `IsEmpty` in src/utils.go, which via `reflect.DeepEqual` against the
  zero value holds exactly for the nil slice.
* `time.Duration` is `Int` (nanosecond count).
* Go `(value, error)` returns are `Except Err value`; every error return in
  dedup.go pairs the error with the zero value, so no information is lost.
* The external store is an oracle `Storage` of response functions, so that
  storage failures can be injected.  Every Deduper operation additionally
  returns the list of storage operations it issued (`List StorageOp`), which
  lets frame properties (state preservation) be stated by replaying the trace.
* `Deduper.hasher` models `func() hash.Hash` followed by `Write`/`Sum nil` as
  one function `Bytes → Bytes`; Deduper operations count its invocations where
  a claim is about laziness of the digest constructor.
* The Go variadic `storeIfNot ...time.Duration` is a `List Int`; the out-of-
  bounds index `storeIfNot[0]` in `IsValueDuplicate` is modelled totally: the
  result type is `Option _` and `none` is the run that panics
  (index out of range).
-/

namespace DedupGo

/-- Byte sequences, modelling Go `[]byte`. -/
abbrev Bytes := List Nat

/-- HashMode from src/dedup.go: `AutoSmart`, `AlwaysHash`, `NeverHash`. -/
inductive HashMode : Type
  | AutoSmart
  | AlwaysHash
  | NeverHash
deriving DecidableEq

/-- HashStrategy from src/dedup.go. Go `int` thresholds are `Int`. -/
structure HashStrategy : Type where
  KeyHashMode   : HashMode
  ValueHashMode : HashMode
  KeyThreshold  : Int
  ValThreshold  : Int
deriving DecidableEq

/-- DefaultHashStrategy from src/dedup.go. -/
def DefaultHashStrategy : HashStrategy :=
  { KeyHashMode := .AutoSmart
    ValueHashMode := .AutoSmart
    KeyThreshold := 24
    ValThreshold := 256 }

/-- Error-code tags, from src/errors.go (DedupEntityNilErrorCode etc.). -/
inductive ErrCode : Type
  | entityNil
  | invalidHash
  | storage
  | missingKey
  | noExpiration
  | typeMismatch
deriving DecidableEq

/-- Errors of the pixie errors-go library as dedup.go uses them:
`errors.New(msg, code)` is `mk code`; `errors.Wrap(err, msg, code)` is
`wrap err code`; the one `errors.Wrap` call without a code (the matcher wrap in
`IsValueDuplicate`) is `wrapNoCode`; opaque errors coming from the external
collaborators (store, extractor, serializer, matcher) are `external tag`. -/
inductive Err : Type
  | mk (code : ErrCode)
  | wrap (inner : Err) (code : ErrCode)
  | wrapNoCode (inner : Err)
  | external (tag : Nat)
deriving DecidableEq

/-- A Go `any` entity as seen by the wrapped handler of `NewDeduper`:
the nil interface value, a value of the bound type `T`, or a value of some
other runtime type. -/
inductive EntityVal (T : Type) : Type
  | isNil
  | wrongType
  | ofType (t : T)

/-- Storage interface from src/dedup.go, as a response oracle.  `get` yields
`none` for the Go nil slice (absent key). `existsQ` is Go `Exists`, `ttlQ` is
Go `TTL`. -/
structure Storage : Type where
  existsQ : Bytes → Except Err Bool
  get     : Bytes → Except Err (Option Bytes)
  setEX   : Bytes → Bytes → Int → Except Err Unit
  ttlQ    : Bytes → Except Err Int

/-- One storage operation issued by a Deduper method (for traces). -/
inductive StorageOp : Type
  | existsOp (key : Bytes)
  | getOp (key : Bytes)
  | setEXOp (key : Bytes) (value : Bytes) (ttl : Int)
  | ttlOp (key : Bytes)
deriving DecidableEq

/-- A concrete key-value store content, used to state frame properties. -/
abbrev StoreMap := List (Bytes × Bytes)

/-- Overwrite-or-insert of one binding in a `StoreMap`. -/
def setAssoc (k v : Bytes) : StoreMap → StoreMap
  | [] => [(k, v)]
  | (k', v') :: rest => if k' = k then (k, v) :: rest else (k', v') :: setAssoc k v rest

/-- Effect of one storage operation on store content: only `setEX` writes. -/
def applyOp (s : StoreMap) : StorageOp → StoreMap
  | .setEXOp k v _ => setAssoc k v s
  | _ => s

/-- Effect of a whole trace of storage operations on store content. -/
def applyTrace (ops : List StorageOp) (s : StoreMap) : StoreMap :=
  ops.foldl applyOp s

/-- Deduper from src/dedup.go.  `handler` is the wrapped hash handler stored by
`NewDeduper` (it already receives the `any` entity); `pfx` is the field named
after the key namespace (the Go field holding `"dedup:<type>:"` or the custom
override); `hasher` models one `func() hash.Hash` round of Write/Sum. -/
structure Deduper (T : Type) : Type where
  handler    : EntityVal T → Except Err Bytes
  pfx        : Bytes
  hasher     : Bytes → Bytes
  matcher    : EntityVal T → Option Bytes → Except Err Bool
  serializer : EntityVal T → Except Err Bytes

/-- The closure `NewDeduper` installs as `handler`: nil check, runtime type
check, then the caller's extraction function (src/dedup.go lines 75-86). -/
def wrappedHandler {T : Type} (handler : T → Except Err Bytes) :
    EntityVal T → Except Err Bytes
  | .isNil => .error (.mk .entityNil)
  | .wrongType => .error (.mk .typeMismatch)
  | .ofType t => handler t

/-- NewDeduper from src/dedup.go.  The default-prefix derivation from the
reflected type name is outside the model: `pfx` is the resulting prefix bytes
(default or custom). -/
def NewDeduper {T : Type} (handler : T → Except Err Bytes) (pfx : Bytes)
    (hasher : Bytes → Bytes) (matcher : EntityVal T → Option Bytes → Except Err Bool)
    (serializer : EntityVal T → Except Err Bytes) : Deduper T :=
  { handler := wrappedHandler handler
    pfx := pfx
    hasher := hasher
    matcher := matcher
    serializer := serializer }

/-- Deduper.Hash from src/dedup.go (lines 96-116).  The second component
counts invocations of the digest constructor `d.hasher` during the call. -/
def Deduper.Hash {T : Type} (d : Deduper T) (entity : EntityVal T)
    (strategy : HashStrategy) (isValue : Bool) : Except Err Bytes × Nat :=
  match d.handler entity with
  | .error e => (.error e, 0)
  | .ok input =>
    let mode := if isValue then strategy.ValueHashMode else strategy.KeyHashMode
    let threshold := if isValue then strategy.ValThreshold else strategy.KeyThreshold
    if mode = HashMode.NeverHash ∨ (mode = HashMode.AutoSmart ∧ (input.length : Int) ≤ threshold) then
      (.ok input, 0)
    else
      (.ok (d.hasher input), 1)

/-- Deduper.buildKey from src/dedup.go: `append(d.prefix, hash...)`. -/
def Deduper.buildKey {T : Type} (d : Deduper T) (h : Bytes) : Bytes :=
  d.pfx ++ h

/-- One hex digit character (byte) of `encoding/hex`: lowercase. -/
def hexDigitChar (n : Nat) : Nat :=
  if n < 10 then 48 + n else 87 + n

/-- hex.EncodeToString from `encoding/hex` as bytes: each byte becomes its two
lowercase hex digit characters. -/
def hexEncode (bs : Bytes) : Bytes :=
  bs.flatMap fun b => [hexDigitChar (b / 16), hexDigitChar (b % 16)]

/-- The value-reduction step of lowercase `store` (src/dedup.go lines 196-200):
digest-and-hex-encode the serialized bytes when the value mode requires it. -/
def valueReduction (strategy : HashStrategy) (hasher : Bytes → Bytes) (ser : Bytes) : Bytes :=
  if strategy.ValueHashMode ≠ HashMode.NeverHash ∧
      (strategy.ValueHashMode = HashMode.AlwaysHash ∨ strategy.ValThreshold < (ser.length : Int)) then
    hexEncode (hasher ser)
  else
    ser

/-- Lowercase store from src/dedup.go (lines 188-208): build key, serialize,
reduce the value, SetEX.  Serializer failure is wrapped with the storage error
code (as in the source), SetEX failure likewise. -/
def Deduper.store {T : Type} (d : Deduper T) (st : Storage) (dedupHash : Bytes)
    (entity : EntityVal T) (strategy : HashStrategy) (expiration : Int) :
    Except Err (Bytes × Bytes) × List StorageOp :=
  let key := d.buildKey dedupHash
  match d.serializer entity with
  | .error e => (.error (.wrap e .storage), [])
  | .ok ser0 =>
    let ser := valueReduction strategy d.hasher ser0
    match st.setEX key ser expiration with
    | .error e => (.error (.wrap e .storage), [.setEXOp key ser expiration])
    | .ok _ => (.ok (dedupHash, key), [.setEXOp key ser expiration])

/-- Deduper.Store from src/dedup.go (lines 180-186): Hash with the key path,
then lowercase store. -/
def Deduper.Store {T : Type} (d : Deduper T) (st : Storage) (entity : EntityVal T)
    (strategy : HashStrategy) (expiration : Int) :
    Except Err (Bytes × Bytes) × List StorageOp :=
  match (d.Hash entity strategy false).1 with
  | .error e => (.error e, [])
  | .ok dedupHash => d.store st dedupHash entity strategy expiration

/-- Deduper.IsDuplicate from src/dedup.go (lines 122-142).  The best-effort
store-if-absent error is logged and dropped: the call returns `exists` with no
error regardless. -/
def Deduper.IsDuplicate {T : Type} (d : Deduper T) (st : Storage) (entity : EntityVal T)
    (strategy : HashStrategy) (storeIfNot : List Int) :
    Except Err Bool × List StorageOp :=
  match (d.Hash entity strategy false).1 with
  | .error e => (.error e, [])
  | .ok dedupHash =>
    let key := d.buildKey dedupHash
    match st.existsQ key with
    | .error e => (.error (.wrap e .storage), [.existsOp key])
    | .ok exb =>
      match storeIfNot with
      | t :: _ =>
        if exb then (.ok exb, [.existsOp key])
        else
          let r := d.Store st entity strategy t
          (.ok exb, .existsOp key :: r.2)
      | [] => (.ok exb, [.existsOp key])

/-- IsEmpty from src/utils.go applied to the fetched record: via
`reflect.DeepEqual` against the zero `[]byte`, true exactly for the nil slice,
modelled as `none`. -/
def IsEmpty (x : Option Bytes) : Bool :=
  x.isNone

/-- Deduper.IsValueDuplicate from src/dedup.go (lines 144-178).  Result `none`
models the run that panics: the branch
`!match && (len(storeIfNot) < 2 || storeIfNot[1] == 1)` evaluates
`storeIfNot[0]`, which is out of range when no duration was supplied. -/
def Deduper.IsValueDuplicate {T : Type} (d : Deduper T) (st : Storage)
    (entity : EntityVal T) (strategy : HashStrategy) (storeIfNot : List Int) :
    Option (Except Err Bool × List StorageOp) :=
  match (d.Hash entity strategy false).1 with
  | .error e => some (.error e, [])
  | .ok dedupHash =>
    let key := d.buildKey dedupHash
    match st.get key with
    | .error e => some (.error (.wrap e .storage), [.getOp key])
    | .ok existing =>
      if IsEmpty existing ∧ 0 < storeIfNot.length then
        match storeIfNot.get? 0 with
        | none => none
        | some t =>
          let r := d.store st dedupHash entity strategy t
          some (.ok false, .getOp key :: r.2)
      else
        match d.matcher entity existing with
        | .error e => some (.error (.wrapNoCode e), [.getOp key])
        | .ok mtc =>
          if mtc = false ∧ (storeIfNot.length < 2 ∨ storeIfNot.get? 1 = some 1) then
            match storeIfNot.get? 0 with
            | none => none
            | some t =>
              let r := d.store st dedupHash entity strategy t
              match r.1 with
              | .error e => some (.error e, .getOp key :: r.2)
              | .ok _ => some (.ok mtc, .getOp key :: r.2)
          else
            some (.ok mtc, [.getOp key])

/-- Deduper.StoreHash from src/dedup.go (lines 210-217): SetEX of the sentinel
byte `"1"` (byte 49) at `prefix ++ hash`. -/
def Deduper.StoreHash {T : Type} (d : Deduper T) (st : Storage) (h : Bytes)
    (expiration : Int) : Except Err Bytes × List StorageOp :=
  let key := d.buildKey h
  match st.setEX key [49] expiration with
  | .error e => (.error (.wrap e .storage), [.setEXOp key [49] expiration])
  | .ok _ => (.ok key, [.setEXOp key [49] expiration])

/-- Deduper.TTL from src/dedup.go (lines 219-232): three-way interpretation of
the raw store TTL. -/
def Deduper.TTL {T : Type} (d : Deduper T) (st : Storage) (h : Bytes) :
    Except Err Int × List StorageOp :=
  let key := d.buildKey h
  match st.ttlQ key with
  | .error e => (.error (.wrap e .storage), [.ttlOp key])
  | .ok ttl =>
    if ttl = 0 then (.error (.mk .missingKey), [.ttlOp key])
    else if ttl < 0 then (.error (.mk .noExpiration), [.ttlOp key])
    else (.ok ttl, [.ttlOp key])

/-- Modelled from the spec: the §4.1 reduction `reduce(input, mode, threshold,
digest)`, stated from the spec's words, for comparison with the code's value
path in `Deduper.store` (refinement claim C6). -/
def reduceSpec (input : Bytes) (mode : HashMode) (threshold : Int)
    (digest : Bytes → Bytes) : Bytes :=
  match mode with
  | .NeverHash => input
  | .AutoSmart => if (input.length : Int) ≤ threshold then input else digest input
  | .AlwaysHash => digest input

/-- Closed form of `Deduper.Hash` once the handler has succeeded. -/
theorem Deduper.Hash_ok {T : Type} (d : Deduper T) (entity : EntityVal T)
    (strategy : HashStrategy) (isValue : Bool) (input : Bytes)
    (hh : d.handler entity = .ok input) :
    d.Hash entity strategy isValue =
      (if (if isValue then strategy.ValueHashMode else strategy.KeyHashMode) = HashMode.NeverHash ∨
          ((if isValue then strategy.ValueHashMode else strategy.KeyHashMode) = HashMode.AutoSmart ∧
            (input.length : Int) ≤ (if isValue then strategy.ValThreshold else strategy.KeyThreshold))
       then (.ok input, 0)
       else (.ok (d.hasher input), 1)) := by
  simp only [Deduper.Hash, hh]

/-- Claim C1: for every input byte sequence, threshold, and mode, the
fingerprint reduction of `Deduper.Hash` behaves as specified: under `NeverHash`
the extracted bytes are returned unchanged and the digest constructor is not
invoked; under `AutoSmart` they are returned unchanged without a digest
invocation exactly when their length is at most the threshold, and are digested
(with exactly one digest invocation) when their length exceeds the threshold —
in particular an input of exactly `N` bytes with threshold `N` is never
digested while `N+1` bytes always is; and under `AlwaysHash` the digest is
always returned, with one digest invocation. -/
theorem c1_hash_reduction {T : Type} (d : Deduper T) (entity : EntityVal T)
    (strategy : HashStrategy) (isValue : Bool) (input : Bytes)
    (hh : d.handler entity = .ok input) :
    ((if isValue then strategy.ValueHashMode else strategy.KeyHashMode) = HashMode.NeverHash →
      d.Hash entity strategy isValue = (.ok input, 0)) ∧
    ((if isValue then strategy.ValueHashMode else strategy.KeyHashMode) = HashMode.AutoSmart →
      (d.Hash entity strategy isValue = (.ok input, 0) ↔
        (input.length : Int) ≤ (if isValue then strategy.ValThreshold else strategy.KeyThreshold)) ∧
      ((if isValue then strategy.ValThreshold else strategy.KeyThreshold) < (input.length : Int) →
        d.Hash entity strategy isValue = (.ok (d.hasher input), 1))) ∧
    ((if isValue then strategy.ValueHashMode else strategy.KeyHashMode) = HashMode.AlwaysHash →
      d.Hash entity strategy isValue = (.ok (d.hasher input), 1)) ∧
    (∀ N : Nat,
      (if isValue then strategy.ValueHashMode else strategy.KeyHashMode) = HashMode.AutoSmart →
      (if isValue then strategy.ValThreshold else strategy.KeyThreshold) = (N : Int) →
      (input.length = N → d.Hash entity strategy isValue = (.ok input, 0)) ∧
      (input.length = N + 1 → d.Hash entity strategy isValue = (.ok (d.hasher input), 1))) := by
  rw [Deduper.Hash_ok d entity strategy isValue input hh]
  set m := (if isValue then strategy.ValueHashMode else strategy.KeyHashMode) with hm
  set thr := (if isValue then strategy.ValThreshold else strategy.KeyThreshold) with hthr
  refine ⟨?_, ?_, ?_, ?_⟩
  · intro h
    simp [h]
  · intro h
    constructor
    · by_cases hle : (input.length : Int) ≤ thr
      · simp [h, hle]
      · simp [h, hle]
    · intro hlt
      have hle : ¬ (input.length : Int) ≤ thr := not_le.mpr hlt
      simp [h, hle]
  · intro h
    simp [h]
  · intro N h hN
    constructor
    · intro hlen
      have hle : (input.length : Int) ≤ thr := by
        rw [hlen, hN]
      simp [h, hle]
    · intro hlen
      have hle : ¬ (input.length : Int) ≤ thr := by
        rw [hlen, hN]
        push_cast
        omega
      simp [h, hle]

/-- Concrete Deduper used by the witness of claim C1. -/
def c1d : Deduper Unit :=
  NewDeduper (fun _ => .ok [1, 2, 3]) [] id (fun _ _ => .ok false) (fun _ => .ok [7])

/-- Witness for claim C1: at the concrete Deduper `c1d` (extracted bytes
`[1,2,3]`) with the default strategy (AutoSmart, key threshold 24), the input
is below the threshold and is returned unchanged without a digest invocation. -/
theorem c1_hash_reduction_witness :
    c1d.Hash (.ofType ()) DefaultHashStrategy false = (.ok [1, 2, 3], 0) :=
  ((c1_hash_reduction c1d (.ofType ()) DefaultHashStrategy false [1, 2, 3] rfl).2.1
    rfl).1.mpr (by decide)

/-- Claim C2: whenever the fingerprint computation succeeds and the existence
query answers `b`, `IsDuplicate` returns `b` with no error — for every variadic
`storeIfNot` list and every behaviour of the rest of the store.  In particular
when the key is absent, a TTL was supplied, and the follow-up store fails, the
failure is not returned: the call still yields `(false, nil)` (`.ok false`). -/
theorem c2_isDuplicate_result {T : Type} (d : Deduper T) (st : Storage)
    (entity : EntityVal T) (strategy : HashStrategy) (storeIfNot : List Int)
    (dedupHash : Bytes) (b : Bool)
    (hh : (d.Hash entity strategy false).1 = .ok dedupHash)
    (he : st.existsQ (d.buildKey dedupHash) = .ok b) :
    (d.IsDuplicate st entity strategy storeIfNot).1 = .ok b := by
  simp only [Deduper.IsDuplicate, hh, he]
  cases storeIfNot with
  | nil => rfl
  | cons t rest => cases b <;> rfl

/-- Concrete Deduper used by the witness of claim C2. -/
def c2d : Deduper Unit :=
  NewDeduper (fun _ => .ok [1]) [] id (fun _ _ => .ok false) (fun _ => .ok [7])

/-- Storage whose key is absent and whose every write fails, used by the
witness of claim C2. -/
def c2st : Storage :=
  { existsQ := fun _ => .ok false
    get := fun _ => .ok none
    setEX := fun _ _ _ => .error (.external 1)
    ttlQ := fun _ => .ok 0 }

/-- Witness for claim C2: key absent, TTL supplied, the write-back fails, and
the call still returns `(false, nil)`. -/
theorem c2_isDuplicate_result_witness :
    (c2d.IsDuplicate c2st (.ofType ()) DefaultHashStrategy [5]).1 = .ok false :=
  c2_isDuplicate_result c2d c2st (.ofType ()) DefaultHashStrategy [5] [1] false rfl rfl

/-- Claim C8: `Deduper.TTL` interprets the raw duration from the store three
ways — store failure yields the wrapped storage error, exactly 0 yields the
missing-key error, any negative value the no-expiration error, and any
positive value is returned unchanged with no error. -/
theorem c8_ttl_interpretation {T : Type} (d : Deduper T) (st : Storage) (h : Bytes) :
    (∀ e, st.ttlQ (d.buildKey h) = .error e →
      d.TTL st h = (.error (.wrap e .storage), [.ttlOp (d.buildKey h)])) ∧
    (st.ttlQ (d.buildKey h) = .ok 0 →
      d.TTL st h = (.error (.mk .missingKey), [.ttlOp (d.buildKey h)])) ∧
    (∀ t : Int, st.ttlQ (d.buildKey h) = .ok t → t < 0 →
      d.TTL st h = (.error (.mk .noExpiration), [.ttlOp (d.buildKey h)])) ∧
    (∀ t : Int, st.ttlQ (d.buildKey h) = .ok t → 0 < t →
      d.TTL st h = (.ok t, [.ttlOp (d.buildKey h)])) := by
  refine ⟨?_, ?_, ?_, ?_⟩
  · intro e he
    simp [Deduper.TTL, he]
  · intro he
    simp [Deduper.TTL, he]
  · intro t ht hneg
    have h0 : ¬ t = 0 := by omega
    simp [Deduper.TTL, ht, h0, hneg]
  · intro t ht hpos
    have h0 : ¬ t = 0 := by omega
    have hneg : ¬ t < 0 := by omega
    simp [Deduper.TTL, ht, h0, hneg]

/-- Concrete Deduper used by the witness of claim C8. -/
def c8d : Deduper Unit :=
  NewDeduper (fun _ => .ok [1]) [] id (fun _ _ => .ok false) (fun _ => .ok [7])

/-- Storage answering a positive raw TTL, used by the witness of claim C8. -/
def c8st : Storage :=
  { existsQ := fun _ => .ok false
    get := fun _ => .ok none
    setEX := fun _ _ _ => .ok ()
    ttlQ := fun _ => .ok 7 }

/-- Witness for claim C8: a positive raw TTL of 7 is returned unchanged. -/
theorem c8_ttl_interpretation_witness :
    c8d.TTL c8st [1] = (.ok 7, [.ttlOp [1]]) :=
  (c8_ttl_interpretation c8d c8st [1]).2.2.2 7 rfl (by decide)

/-- Claim C10: `IsDuplicate` with no `storeIfNot` duration issues no write:
its storage trace is empty or a single existence query, and replaying the
trace leaves any store content unchanged. -/
theorem c10_isDuplicate_frame {T : Type} (d : Deduper T) (st : Storage)
    (entity : EntityVal T) (strategy : HashStrategy) :
    (∀ s : StoreMap, applyTrace (d.IsDuplicate st entity strategy []).2 s = s) ∧
    ((d.IsDuplicate st entity strategy []).2 = [] ∨
      ∃ k : Bytes, (d.IsDuplicate st entity strategy []).2 = [.existsOp k]) := by
  cases hres : (d.Hash entity strategy false).1 with
  | error e =>
    constructor
    · intro s
      simp [Deduper.IsDuplicate, hres, applyTrace]
    · left
      simp [Deduper.IsDuplicate, hres]
  | ok dedupHash =>
    cases hex : st.existsQ (d.buildKey dedupHash) with
    | error e =>
      constructor
      · intro s
        simp [Deduper.IsDuplicate, hres, hex, applyTrace, applyOp]
      · right
        exact ⟨d.buildKey dedupHash, by simp [Deduper.IsDuplicate, hres, hex]⟩
    | ok exb =>
      constructor
      · intro s
        simp [Deduper.IsDuplicate, hres, hex, applyTrace, applyOp]
      · right
        exact ⟨d.buildKey dedupHash, by simp [Deduper.IsDuplicate, hres, hex]⟩

/-- Deduper whose matcher always answers a negative match, used by the claim
C3 evaluation. -/
def c3d : Deduper Unit :=
  NewDeduper (fun _ => .ok [1]) [] id (fun _ _ => .ok false) (fun _ => .ok [7])

/-- Deduper whose matcher fails, used by the claim C3 evaluation to show the
matcher is consulted on an empty record. -/
def c3dErr : Deduper Unit :=
  NewDeduper (fun _ => .ok [1]) [] id (fun _ _ => .error (.external 3)) (fun _ => .ok [7])

/-- Storage with an absent record (Get answers the nil slice), used by the
claim C3 evaluation. -/
def c3st : Storage :=
  { existsQ := fun _ => .ok false
    get := fun _ => .ok none
    setEX := fun _ _ _ => .ok ()
    ttlQ := fun _ => .ok 0 }

/-- Claim C3, evaluated at its failing input: when the fetched record is
empty/absent and no `storeIfNot` duration was supplied, `IsValueDuplicate`
does not return `(false, nil)` — the guard `IsEmpty(existing) &&
len(storeIfNot) > 0` is false, so the call falls through to the matcher
(first conjunct: a failing matcher's wrapped error is returned, so the
matcher is consulted, contrary to the claim), and with a matcher answering a
negative match the update branch then evaluates `storeIfNot[0]` out of range
and the run panics (second conjunct: result `none`). -/
theorem c3_empty_record_eval :
    c3dErr.IsValueDuplicate c3st (.ofType ()) DefaultHashStrategy []
      = some (.error (.wrapNoCode (.external 3)), [.getOp [1]]) ∧
    c3d.IsValueDuplicate c3st (.ofType ()) DefaultHashStrategy [] = none := by
  constructor <;> rfl

/-- Deduper used by the claim C9 evaluation. -/
def c9d : Deduper Unit :=
  NewDeduper (fun _ => .ok [2, 3]) [] id (fun _ _ => .ok false) (fun _ => .ok [7])

/-- Storage holding a non-empty record at every key, used by the claim C9
evaluation. -/
def c9st : Storage :=
  { existsQ := fun _ => .ok true
    get := fun _ => .ok (some [9])
    setEX := fun _ _ _ => .ok ()
    ttlQ := fun _ => .ok 0 }

/-- Claim C9, evaluated at its failing input: with no `storeIfNot` duration, a
non-empty fetched record, and a negative match, `IsValueDuplicate` reaches the
index `storeIfNot[0]` on the empty variadic slice — in the total embedding the
`none` branch of that index is taken (the Go run panics with index out of
range), refuting the claim that every slice access is in bounds. -/
theorem c9_index_out_of_range :
    c9st.get [2, 3] = .ok (some [9]) ∧
    c9d.matcher (.ofType ()) (some [9]) = .ok false ∧
    c9d.IsValueDuplicate c9st (.ofType ()) DefaultHashStrategy [] = none := by
  refine ⟨rfl, rfl, rfl⟩

/-- Deduper used by the claim C4 counterexample. -/
def c4dC : Deduper Unit :=
  NewDeduper (fun _ => .ok [4]) [] id (fun _ _ => .ok false) (fun _ => .ok [8])

/-- Storage holding a non-empty stale record, used by the claim C4
counterexample. -/
def c4stC : Storage :=
  { existsQ := fun _ => .ok true
    get := fun _ => .ok (some [5])
    setEX := fun _ _ _ => .ok ()
    ttlQ := fun _ => .ok 0 }

/-- Counterexample for claim C4 as stated: the matcher reports a negative
match and the caller did not suppress update-on-mismatch (no variadic
arguments at all, so the default "do update" applies), yet the serialized
entity is not re-stored and no error is propagated — the call evaluates
`storeIfNot[0]` out of range and panics (result `none`). -/
theorem c4_counterexample :
    c4dC.matcher (.ofType ()) (some [5]) = .ok false ∧
    c4dC.IsValueDuplicate c4stC (.ofType ()) DefaultHashStrategy [] = none := by
  refine ⟨rfl, rfl⟩

/-- Claim C4 (amended): when the matcher reports a negative match, the caller
did not explicitly suppress update-on-mismatch, and at least one `storeIfNot`
duration was supplied, the serialized entity is re-stored under the same key
with the first supplied duration, and a failure of that re-store is
propagated to the caller as the call's error (unlike the best-effort store of
the empty-record branch). -/
theorem c4_mismatch_update {T : Type} (d : Deduper T) (st : Storage)
    (entity : EntityVal T) (strategy : HashStrategy) (t : Int) (rest : List Int)
    (dedupHash : Bytes) (bs : Bytes)
    (hh : (d.Hash entity strategy false).1 = .ok dedupHash)
    (hget : st.get (d.buildKey dedupHash) = .ok (some bs))
    (hmatch : d.matcher entity (some bs) = .ok false)
    (hsup : (t :: rest).length < 2 ∨ (t :: rest).get? 1 = some 1) :
    (∀ e, (d.store st dedupHash entity strategy t).1 = .error e →
      d.IsValueDuplicate st entity strategy (t :: rest)
        = some (.error e,
            .getOp (d.buildKey dedupHash) :: (d.store st dedupHash entity strategy t).2)) ∧
    (∀ p, (d.store st dedupHash entity strategy t).1 = .ok p →
      d.IsValueDuplicate st entity strategy (t :: rest)
        = some (.ok false,
            .getOp (d.buildKey dedupHash) :: (d.store st dedupHash entity strategy t).2)) ∧
    (∀ ser, d.serializer entity = .ok ser →
      (d.store st dedupHash entity strategy t).2
        = [.setEXOp (d.buildKey dedupHash) (valueReduction strategy d.hasher ser) t]) := by
  have hne : ¬ (IsEmpty (some bs) ∧ 0 < (t :: rest).length) := by
    simp [IsEmpty]
  have hcond : ((false : Bool) = false ∧
      ((t :: rest).length < 2 ∨ (t :: rest).get? 1 = some 1)) := ⟨rfl, hsup⟩
  refine ⟨?_, ?_, ?_⟩
  · intro e hstore
    simp only [Deduper.IsValueDuplicate, hh, hget, hmatch, if_neg hne, if_pos hcond,
      List.get?_cons_zero, hstore]
    rw [if_pos ⟨trivial, hsup⟩]
  · intro p hstore
    simp only [Deduper.IsValueDuplicate, hh, hget, hmatch, if_neg hne, if_pos hcond,
      List.get?_cons_zero, hstore]
    rw [if_pos ⟨trivial, hsup⟩]
  · intro ser hser
    cases hse : st.setEX (d.buildKey dedupHash) (valueReduction strategy d.hasher ser) t with
    | error e => simp [Deduper.store, hser, hse]
    | ok u => simp [Deduper.store, hser, hse]

/-- Deduper used by the witness of claim C4. -/
def c4d : Deduper Unit :=
  NewDeduper (fun _ => .ok [4]) [] id (fun _ _ => .ok false) (fun _ => .ok [8])

/-- Storage with a non-empty stale record whose writes fail, used by the
witness of claim C4. -/
def c4st : Storage :=
  { existsQ := fun _ => .ok true
    get := fun _ => .ok (some [5])
    setEX := fun _ _ _ => .error (.external 4)
    ttlQ := fun _ => .ok 0 }

/-- Witness for claim C4 (amended): a negative match with one supplied
duration re-stores under the same key, and the failing re-store's wrapped
error is returned as the call's error. -/
theorem c4_mismatch_update_witness :
    c4d.IsValueDuplicate c4st (.ofType ()) DefaultHashStrategy [6]
      = some (.error (.wrap (.external 4) .storage), [.getOp [4], .setEXOp [4] [8] 6]) :=
  (c4_mismatch_update c4d c4st (.ofType ()) DefaultHashStrategy 6 [] [4] [5]
    rfl rfl rfl (Or.inl (by decide))).1 (.wrap (.external 4) .storage) rfl

/-- Deduper whose serializer yields the bytes of "abc", used by the claim C5
counterexample and witness. -/
def c5d : Deduper Unit :=
  NewDeduper (fun _ => .ok [1]) [] id (fun _ _ => .ok false) (fun _ => .ok [97, 98, 99])

/-- Strategy with a value mode that never digests, used by the claim C5
counterexample and witness. -/
def c5strat : HashStrategy :=
  { KeyHashMode := .AutoSmart
    ValueHashMode := .NeverHash
    KeyThreshold := 24
    ValThreshold := 256 }

/-- All-absent, all-succeeding storage, used by the claim C5 counterexample
and witness. -/
def c5st : Storage :=
  { existsQ := fun _ => .ok false
    get := fun _ => .ok none
    setEX := fun _ _ _ => .ok ()
    ttlQ := fun _ => .ok 0 }

/-- Counterexample for claim C5 as stated: `IsDuplicate`'s store-if-absent
write-back does not write the sentinel byte `"1"` (byte 49) — it goes through
`Store`, so the value written here is the serialized entity `[97, 98, 99]`,
which differs from `[49]`. -/
theorem c5_counterexample :
    (c5d.IsDuplicate c5st (.ofType ()) c5strat [10]).2
      = [.existsOp [1], .setEXOp [1] [97, 98, 99] 10] ∧
    ([97, 98, 99] : Bytes) ≠ [49] := by
  refine ⟨rfl, by decide⟩

/-- Claim C5 (amended): `StoreHash` always writes the sentinel byte `"1"`
(byte 49), for every fingerprint and TTL; `IsDuplicate`'s store-if-absent
write-back instead goes through `Store` and writes the serialized (and
possibly digested) entity value, not the sentinel. -/
theorem c5_stored_values {T : Type} (d : Deduper T) (st : Storage) :
    (∀ (h : Bytes) (exp : Int),
      (d.StoreHash st h exp).2 = [.setEXOp (d.buildKey h) [49] exp]) ∧
    (∀ (entity : EntityVal T) (strategy : HashStrategy) (t : Int) (rest : List Int)
        (dedupHash ser : Bytes),
      (d.Hash entity strategy false).1 = .ok dedupHash →
      st.existsQ (d.buildKey dedupHash) = .ok false →
      d.serializer entity = .ok ser →
      (d.IsDuplicate st entity strategy (t :: rest)).2
        = [.existsOp (d.buildKey dedupHash),
           .setEXOp (d.buildKey dedupHash) (valueReduction strategy d.hasher ser) t]) := by
  constructor
  · intro h exp
    cases hse : st.setEX (d.buildKey h) [49] exp with
    | error e => simp [Deduper.StoreHash, hse]
    | ok u => simp [Deduper.StoreHash, hse]
  · intro entity strategy t rest dedupHash ser hh hex hser
    simp only [Deduper.IsDuplicate, hh, hex, Deduper.Store, Deduper.store, hser]
    cases hse : st.setEX (d.buildKey dedupHash) (valueReduction strategy d.hasher ser) t with
    | error e => simp [hse]
    | ok u => simp [hse]

/-- Witness for claim C5 (amended): the write-back of `IsDuplicate` at the
concrete Deduper `c5d` issues a `setEX` of the (unreduced) serialized value. -/
theorem c5_stored_values_witness :
    (c5d.IsDuplicate c5st (.ofType ()) c5strat [10]).2
      = [.existsOp [1], .setEXOp [1] (valueReduction c5strat c5d.hasher [97, 98, 99]) 10] :=
  (c5_stored_values c5d c5st).2 (.ofType ()) c5strat 10 [] [1] [97, 98, 99] rfl rfl rfl

/-- Deduper whose digest collapses every input to the single byte 0, used by
the claim C6 counterexample and witness. -/
def c6d : Deduper Unit :=
  NewDeduper (fun _ => .ok [1]) [] (fun _ => [0]) (fun _ _ => .ok false) (fun _ => .ok [5])

/-- Strategy that always digests the value path, used by the claim C6
counterexample and witness. -/
def c6strat : HashStrategy :=
  { KeyHashMode := .NeverHash
    ValueHashMode := .AlwaysHash
    KeyThreshold := 24
    ValThreshold := 256 }

/-- All-succeeding storage, used by the claim C6 counterexample and witness. -/
def c6st : Storage :=
  { existsQ := fun _ => .ok false
    get := fun _ => .ok none
    setEX := fun _ _ _ => .ok ()
    ttlQ := fun _ => .ok 0 }

/-- Counterexample for claim C6 as stated: under `AlwaysHash` value mode with
the digest collapsing to `[0]`, the §4.1 reduction of the serialized bytes is
`[0]`, but the value `Store` actually writes is its lowercase-hex text
encoding `[48, 48]` (the characters "00"), which differs. -/
theorem c6_counterexample :
    (c6d.Store c6st (.ofType ()) c6strat 9).2 = [.setEXOp [1] [48, 48] 9] ∧
    reduceSpec [5] HashMode.AlwaysHash 256 c6d.hasher = [0] ∧
    ([48, 48] : Bytes) ≠ [0] := by
  refine ⟨rfl, rfl, by decide⟩

/-- The value path of lowercase `store` is exactly the §4.1 reduction with the
digest function replaced by its hex-text encoding. -/
theorem valueReduction_eq_reduceSpec (strategy : HashStrategy) (hasher : Bytes → Bytes)
    (ser : Bytes) :
    valueReduction strategy hasher ser
      = reduceSpec ser strategy.ValueHashMode strategy.ValThreshold
          (fun bs => hexEncode (hasher bs)) := by
  cases hm : strategy.ValueHashMode with
  | NeverHash => simp [valueReduction, reduceSpec, hm]
  | AlwaysHash => simp [valueReduction, reduceSpec, hm]
  | AutoSmart =>
    by_cases hle : (ser.length : Int) ≤ strategy.ValThreshold
    · have : ¬ strategy.ValThreshold < (ser.length : Int) := not_lt.mpr hle
      simp [valueReduction, reduceSpec, hm, hle, this]
    · have : strategy.ValThreshold < (ser.length : Int) := not_le.mp hle
      simp [valueReduction, reduceSpec, hm, hle, this]

/-- Claim C6 (amended): `Store` computes the fingerprint per §4.2 (key mode and
threshold), fails with a wrapped error when the serializer fails, reduces the
serialized bytes by the §4.1 mode/threshold decision for the value path but
with the digest encoded as lowercase hex text rather than raw digest bytes,
writes the pair (key, reduced value) with the given TTL, and on success
returns the fingerprint and the full key. -/
theorem c6_store_behaviour {T : Type} (d : Deduper T) (st : Storage)
    (entity : EntityVal T) (strategy : HashStrategy) (exp : Int) (dedupHash : Bytes)
    (hh : (d.Hash entity strategy false).1 = .ok dedupHash) :
    (∀ e, d.serializer entity = .error e →
      d.Store st entity strategy exp = (.error (.wrap e .storage), [])) ∧
    (∀ ser, d.serializer entity = .ok ser →
      valueReduction strategy d.hasher ser
        = reduceSpec ser strategy.ValueHashMode strategy.ValThreshold
            (fun bs => hexEncode (d.hasher bs)) ∧
      (st.setEX (d.buildKey dedupHash) (valueReduction strategy d.hasher ser) exp = .ok () →
        d.Store st entity strategy exp
          = (.ok (dedupHash, d.buildKey dedupHash),
             [.setEXOp (d.buildKey dedupHash) (valueReduction strategy d.hasher ser) exp])) ∧
      (∀ e, st.setEX (d.buildKey dedupHash) (valueReduction strategy d.hasher ser) exp
          = .error e →
        d.Store st entity strategy exp
          = (.error (.wrap e .storage),
             [.setEXOp (d.buildKey dedupHash) (valueReduction strategy d.hasher ser) exp]))) := by
  constructor
  · intro e hser
    simp [Deduper.Store, hh, Deduper.store, hser]
  · intro ser hser
    refine ⟨valueReduction_eq_reduceSpec strategy d.hasher ser, ?_, ?_⟩
    · intro hse
      simp [Deduper.Store, hh, Deduper.store, hser, hse]
    · intro e hse
      simp [Deduper.Store, hh, Deduper.store, hser, hse]

/-- Witness for claim C6 (amended): at the concrete Deduper `c6d` the store
succeeds and returns the fingerprint with the full key, having written the
hex-encoded digest. -/
theorem c6_store_behaviour_witness :
    c6d.Store c6st (.ofType ()) c6strat 9
      = (.ok ([1], [1]), [.setEXOp [1] [48, 48] 9]) :=
  ((c6_store_behaviour c6d c6st (.ofType ()) c6strat 9 [1] rfl).2 [5] rfl).2.1 rfl

/-- Deduper whose bound extraction function fails with an opaque error, used
by the claim C7 counterexample. -/
def c7d : Deduper Unit :=
  NewDeduper (fun _ => .error (.external 7)) [] id (fun _ _ => .ok false) (fun _ => .ok [7])

/-- Counterexample for claim C7 as stated: when the bound extraction function
fails, `Hash` returns that error unchanged — it is not the
`InvalidHashInputError` wrapping of it the claim requires, and carries no
invalid-hash error code at all. -/
theorem c7_counterexample :
    (c7d.Hash (.ofType ()) DefaultHashStrategy false).1 = .error (.external 7) ∧
    Err.external 7 ≠ Err.wrap (.external 7) .invalidHash ∧
    Err.external 7 ≠ Err.mk .invalidHash := by
  refine ⟨rfl, by decide, by decide⟩

/-- Claim C7 (amended): for every strategy, `Hash` of a nil entity fails with
`EntityNilError`, `Hash` of an entity of the wrong runtime type fails with
`EntityTypeMismatchError`, and when the bound extraction function itself
returns an error, `Hash` returns that error unchanged (the declared
`InvalidHashInputError` code is never applied). -/
theorem c7_hash_error_paths {T : Type} (handler : T → Except Err Bytes) (pfx : Bytes)
    (hasher : Bytes → Bytes) (matcher : EntityVal T → Option Bytes → Except Err Bool)
    (serializer : EntityVal T → Except Err Bytes) (strategy : HashStrategy)
    (isValue : Bool) :
    (NewDeduper handler pfx hasher matcher serializer).Hash .isNil strategy isValue
        = (.error (.mk .entityNil), 0) ∧
    (NewDeduper handler pfx hasher matcher serializer).Hash .wrongType strategy isValue
        = (.error (.mk .typeMismatch), 0) ∧
    (∀ (t : T) (e : Err), handler t = .error e →
      (NewDeduper handler pfx hasher matcher serializer).Hash (.ofType t) strategy isValue
        = (.error e, 0)) := by
  refine ⟨rfl, rfl, ?_⟩
  intro t e he
  simp [Deduper.Hash, NewDeduper, wrappedHandler, he]

/-- Witness for claim C7 (amended): the concrete failing extraction function's
error is returned by `Hash` unchanged. -/
theorem c7_hash_error_paths_witness :
    (NewDeduper (fun _ : Unit => Except.error (Err.external 7)) [] id
        (fun _ _ => .ok false) (fun _ => .ok [7])).Hash
      (.ofType ()) DefaultHashStrategy false = (.error (.external 7), 0) :=
  (c7_hash_error_paths (fun _ : Unit => Except.error (Err.external 7)) [] id
    (fun _ _ => .ok false) (fun _ => .ok [7]) DefaultHashStrategy false).2.2
    () (.external 7) rfl

end DedupGo
